import Mathlib

/-!
Verification development for the tonearm geometry calculator
(src/cli/calculator.js).  The numeric core `calculateGeometry`, the
argument parser `parseArgs` and the entry point `main` are shallowly
embedded below; JavaScript numbers are modelled as real numbers
(with an `Option ℝ` variant capturing NaN where a claim needs it),
thrown exceptions as `Except String`, and the observable process
behaviour (exit code, stdout, stderr) as an explicit record.
-/

/-- Result record returned by calculateGeometry, with the fields in the
order of the object literal in the source. -/
structure GeometryResult where
  pivotToSpindle : ℝ
  innerNull : ℝ
  outerNull : ℝ
  effectiveLength : ℝ
  offsetAngleDeg : ℝ
  overhang : ℝ
  linearOffset : ℝ

/-- Fixed table of alignment schemes, in the insertion order of the
object literal SCHEMES in the source (JavaScript object iteration
order for string keys is insertion order). -/
def SCHEMES : List (String × ℝ × ℝ) :=
  [("Löfgren A / Baerwald", 66.0, 120.9),
   ("Löfgren B", 70.3, 116.6),
   ("Stevenson", 60.0, 117.0),
   ("Rega (factory)", 60.0, 120.0),
   ("Technics (JIS-based)", 60.0, 116.0)]

/-- Embedding of the function calculateGeometry from src/cli/calculator.js.
Thrown errors become Except.error with the thrown message; the guard
conditions are written exactly as in the source (negated comparisons). -/
noncomputable def calculateGeometry (pivotToSpindle innerNull outerNull : ℝ) :
    Except String GeometryResult :=
  if ¬ pivotToSpindle > 0 then .error "Pivot-to-spindle distance must be positive."
  else if ¬ (innerNull > 0 ∧ outerNull > 0) then .error "Null points must be positive."
  else if innerNull ≥ outerNull then .error "Inner null must be smaller than outer null."
  else
    let rProduct := innerNull * outerNull
    let effectiveLength := Real.sqrt (pivotToSpindle * pivotToSpindle + rProduct)
    let linearOffset := 0.5 * (innerNull + outerNull)
    if linearOffset > effectiveLength then
      .error "Geometry impossible: linear offset exceeds effective length."
    else
      let offsetAngleDeg := Real.arcsin (linearOffset / effectiveLength) * 180 / Real.pi
      let overhang := effectiveLength - pivotToSpindle
      .ok { pivotToSpindle := pivotToSpindle, innerNull := innerNull,
            outerNull := outerNull, effectiveLength := effectiveLength,
            offsetAngleDeg := offsetAngleDeg, overhang := overhang,
            linearOffset := linearOffset }

/-- Sequence of outcomes of repeated calls to the calculator: the
program state carries nothing between calls, so a run is just the list
of per-call outcomes. -/
noncomputable def callSequence (calls : List (ℝ × ℝ × ℝ)) :
    List (Except String GeometryResult) :=
  calls.map fun c => calculateGeometry c.1 c.2.1 c.2.2

/-- Truthiness of a JavaScript number compared with 0: NaN is modelled
as none, and NaN > 0 is false in JavaScript, as is undefined > 0. -/
def jsGtZero : Option ℝ → Prop
  | none => False
  | some x => x > 0

/-- Numeric value of a JavaScript number that is known not to be NaN;
the none case is unreachable once a jsGtZero guard has passed. -/
def jsVal : Option ℝ → ℝ
  | none => 0
  | some x => x

open Classical in
/-- Embedding of calculateGeometry over JavaScript numbers that may be
NaN (modelled as none).  The first two guards of the source are written as
negations, so a NaN argument fails them; past those guards all three
arguments are non-NaN reals and the remaining code is exactly
calculateGeometry (whose first two guards are then already known to
pass).  The agreement lemma calculateGeometryJS_eq below checks this
against the all-real embedding. -/
noncomputable def calculateGeometryJS (p i o : Option ℝ) :
    Except String GeometryResult :=
  if ¬ jsGtZero p then .error "Pivot-to-spindle distance must be positive."
  else if ¬ (jsGtZero i ∧ jsGtZero o) then .error "Null points must be positive."
  else calculateGeometry (jsVal p) (jsVal i) (jsVal o)

/-- Parsed command-line arguments, mirroring the args object built by
parseArgs in the source (null modelled as none). -/
structure ParsedArgs where
  pivotToSpindle : Option ℝ
  scheme : Option String
  nulls : Option (ℝ × ℝ)
  listSchemes : Bool

/-- Truthiness of the args.scheme field: in JavaScript an absent value
and the empty string are both falsy. -/
def jsTruthy : Option String → Bool
  | none => false
  | some s => s != ""

/-- Recursive worker for parseArgs: one iteration of the while
loop per constructor case, consuming tokens exactly as rest.shift()
does.  The numeric conversion parseFloat followed by the
Number.isFinite test is modelled by the host-function parameter pf,
which returns none when the JavaScript result would be NaN or infinite
(in particular on a missing token, since parseFloat(undefined) is NaN). -/
def parseArgsGo (pf : String → Option ℝ) :
    ParsedArgs → List String → Except String ParsedArgs
  | args, [] => .ok args
  | args, "--scheme" :: rest =>
    if jsTruthy args.scheme || args.nulls.isSome then
      .error "Choose only one of --scheme or --nulls."
    else
      match rest with
      | [] => .error "--scheme requires a value."
      | name :: rest' =>
        if name = "" then .error "--scheme requires a value."
        else parseArgsGo pf { args with scheme := some name } rest'
  | args, "--nulls" :: rest =>
    if jsTruthy args.scheme || args.nulls.isSome then
      .error "Choose only one of --scheme or --nulls."
    else
      match rest with
      | a :: b :: rest' =>
        match pf a, pf b with
        | some inner, some outer =>
          parseArgsGo pf { args with nulls := some (inner, outer) } rest'
        | _, _ => .error "--nulls requires two numeric values."
      | _ => .error "--nulls requires two numeric values."
  | args, "--list-schemes" :: rest =>
    parseArgsGo pf { args with listSchemes := true } rest
  | args, token :: rest =>
    if token.startsWith "--" then .error ("Unknown flag: " ++ token)
    else if args.pivotToSpindle.isSome then
      .error "Pivot-to-spindle distance already provided."
    else
      match pf token with
      | some len => parseArgsGo pf { args with pivotToSpindle := some len } rest
      | none => .error "Pivot-to-spindle distance must be numeric."

/-- Embedding of parseArgs from the source: starts from the all-empty
args object and walks the token list. -/
def parseArgs (pf : String → Option ℝ) (argv : List String) :
    Except String ParsedArgs :=
  parseArgsGo pf
    { pivotToSpindle := none, scheme := none, nulls := none, listSchemes := false }
    argv

/-- Observable behaviour of one process invocation: exit code plus the
console.log and console.error lines in order. -/
structure MainResult where
  exitCode : Nat
  stdout : List String
  stderr : List String

/-- Embedding of formatGeometry from the source; the host function
Number.prototype.toFixed is the parameter fmt (value, digit count).
The label texts and the join by a newline into a single console.log
argument reproduce the source exactly. -/
def formatGeometry (fmt : ℝ → Nat → String) (v : GeometryResult) : String :=
  String.intercalate "\n"
    ["Pivot-to-spindle:  " ++ fmt v.pivotToSpindle 2 ++ " mm",
     "Null points:       " ++ fmt v.innerNull 2 ++ " mm / " ++ fmt v.outerNull 2 ++ " mm",
     "Effective length:  " ++ fmt v.effectiveLength 2 ++ " mm",
     "Offset angle:      " ++ fmt v.offsetAngleDeg 3 ++ " deg",
     "Overhang:          " ++ fmt v.overhang 3 ++ " mm",
     "Linear offset:     " ++ fmt v.linearOffset 3 ++ " mm"]

/-- One scheme line printed by the --list-schemes branch of main; the
host number-to-string conversion of a template literal is the
parameter numStr. -/
def schemeLine (numStr : ℝ → String) (s : String × ℝ × ℝ) : String :=
  s.1 ++ ": " ++ numStr s.2.1 ++ " mm / " ++ numStr s.2.2 ++ " mm"

/-- Final stage of main: run the geometry computation and print, or
report the thrown message on stderr with exit code 1. -/
noncomputable def runGeometry (fmt : ℝ → Nat → String) (p i o : ℝ) : MainResult :=
  match calculateGeometry p i o with
  | .ok g => ⟨0, [formatGeometry fmt g], []⟩
  | .error e => ⟨1, [], ["error: " ++ e]⟩

/-- Embedding of main from the source.  process.exit(1) after a
console.error becomes returning exit code 1 with the error line;
returning normally becomes exit code 0.  In the scheme branch the
source writes the unknown name between single quote characters
(\x27) in the error message, and reaches the name lookup only when
args.scheme is truthy, so the falsy empty string falls through to the
choose-one error exactly as in JavaScript. -/
noncomputable def mainModel (pf : String → Option ℝ) (fmt : ℝ → Nat → String)
    (numStr : ℝ → String) (argv : List String) : MainResult :=
  match parseArgs pf argv with
  | .error e => ⟨1, [], ["error: " ++ e]⟩
  | .ok args =>
    if args.listSchemes then
      ⟨0, SCHEMES.map (schemeLine numStr), []⟩
    else
      match args.pivotToSpindle with
      | none =>
        ⟨1, [], ["error: pivot-to-spindle distance is required unless --list-schemes is used"]⟩
      | some p =>
        match args.nulls with
        | some (inner, outer) => runGeometry fmt p inner outer
        | none =>
          match args.scheme with
          | some s =>
            if s = "" then ⟨1, [], ["error: choose --scheme or provide --nulls"]⟩
            else
              match SCHEMES.find? (fun t => t.1 = s) with
              | some t => runGeometry fmt p t.2.1 t.2.2
              | none => ⟨1, [], ["error: unknown scheme \x27" ++ s ++ "\x27"]⟩
          | none => ⟨1, [], ["error: choose --scheme or provide --nulls"]⟩

/-- Concrete host-function stand-ins used by closed witness and
counterexample statements: a numeric parser that accepts nothing and
formatters that render nothing. -/
def noParse : String → Option ℝ := fun _ => none

/-- Concrete toFixed stand-in for closed statements. -/
def blankFmt : ℝ → Nat → String := fun _ _ => ""

/-- Concrete template-literal number rendering stand-in for closed
statements. -/
def blankNum : ℝ → String := fun _ => ""

/-- Characterization of the success case of calculateGeometry: the call
returns a result exactly when all four validation checks pass, and the
fields of the result are the computed quantities. -/
lemma calculateGeometry_ok_iff (p i o : ℝ) (r : GeometryResult) :
    calculateGeometry p i o = Except.ok r ↔
      0 < p ∧ 0 < i ∧ 0 < o ∧ i < o ∧
      0.5 * (i + o) ≤ Real.sqrt (p * p + i * o) ∧
      r = { pivotToSpindle := p, innerNull := i, outerNull := o,
            effectiveLength := Real.sqrt (p * p + i * o),
            offsetAngleDeg :=
              Real.arcsin (0.5 * (i + o) / Real.sqrt (p * p + i * o)) * 180 / Real.pi,
            overhang := Real.sqrt (p * p + i * o) - p,
            linearOffset := 0.5 * (i + o) } := by
  simp only [calculateGeometry]
  split_ifs with h1 h2 h3 h4
  · rw [false_iff]
    rintro ⟨-, -, -, hio, -⟩
    exact absurd hio (not_lt.mpr h3)
  · rw [false_iff]
    rintro ⟨-, -, -, -, hle, -⟩
    exact absurd h4 (not_lt.mpr hle)
  · push_neg at h3 h4
    rw [Except.ok.injEq]
    constructor
    · intro h
      exact ⟨h1, h2.1, h2.2, h3, h4, h.symm⟩
    · rintro ⟨-, -, -, -, -, rfl⟩
      rfl
  · rw [false_iff]
    rintro ⟨-, hi, ho, -⟩
    exact h2 ⟨hi, ho⟩
  · rw [false_iff]
    rintro ⟨hp, -⟩
    exact h1 hp

/-- Characterization of the failure case of calculateGeometry: the call
throws exactly when one of the four validation checks fails. -/
lemma calculateGeometry_error_iff (p i o : ℝ) :
    (∃ e, calculateGeometry p i o = Except.error e) ↔
      ¬ p > 0 ∨ ¬ (i > 0 ∧ o > 0) ∨ i ≥ o ∨
        Real.sqrt (p * p + i * o) < 0.5 * (i + o) := by
  constructor
  · rintro ⟨e, he⟩
    by_contra hcon
    push_neg at hcon
    obtain ⟨hp, hio, hlt, hle⟩ := hcon
    have hok := (calculateGeometry_ok_iff p i o _).mpr
      ⟨hp, hio.1, hio.2, hlt, hle, rfl⟩
    rw [hok] at he
    exact Except.noConfusion he
  · intro hdisj
    cases hres : calculateGeometry p i o with
    | error e => exact ⟨e, rfl⟩
    | ok r =>
      obtain ⟨hp, hi, ho, hio, hle, -⟩ := (calculateGeometry_ok_iff p i o r).mp hres
      rcases hdisj with h | h | h | h
      · exact absurd hp h
      · exact absurd ⟨hi, ho⟩ h
      · exact absurd h (not_le.mpr hio)
      · exact absurd h (not_lt.mpr hle)

/-- C1: for every input passing all validation checks, calculateGeometry
returns the record computed by the six algorithm steps of the spec:
effectiveLength = sqrt(pivotToSpindle^2 + innerNull*outerNull),
linearOffset = 0.5*(innerNull + outerNull),
offsetAngleDeg = asin(linearOffset/effectiveLength)*180/pi, and
overhang = effectiveLength - pivotToSpindle. -/
theorem calculateGeometry_follows_spec_algorithm (p i o : ℝ)
    (hp : p > 0) (hi : i > 0) (ho : o > 0) (hio : i < o)
    (hle : 0.5 * (i + o) ≤ Real.sqrt (p ^ 2 + i * o)) :
    calculateGeometry p i o = Except.ok
      { pivotToSpindle := p, innerNull := i, outerNull := o,
        effectiveLength := Real.sqrt (p ^ 2 + i * o),
        offsetAngleDeg :=
          Real.arcsin (0.5 * (i + o) / Real.sqrt (p ^ 2 + i * o)) * 180 / Real.pi,
        overhang := Real.sqrt (p ^ 2 + i * o) - p,
        linearOffset := 0.5 * (i + o) } := by
  rw [pow_two] at hle ⊢
  exact (calculateGeometry_ok_iff p i o _).mpr ⟨hp, hi, ho, hio, hle, rfl⟩

/-- Witness for C1 at the concrete valid input (3, 2, 6). -/
theorem calculateGeometry_follows_spec_algorithm_witness :
    calculateGeometry 3 2 6 = Except.ok
      { pivotToSpindle := 3, innerNull := 2, outerNull := 6,
        effectiveLength := Real.sqrt (3 ^ 2 + 2 * 6),
        offsetAngleDeg :=
          Real.arcsin (0.5 * (2 + 6) / Real.sqrt (3 ^ 2 + 2 * 6)) * 180 / Real.pi,
        overhang := Real.sqrt (3 ^ 2 + 2 * 6) - 3,
        linearOffset := 0.5 * (2 + 6) } :=
  calculateGeometry_follows_spec_algorithm 3 2 6 (by norm_num) (by norm_num)
    (by norm_num) (by norm_num)
    (by rw [Real.le_sqrt (by norm_num) (by norm_num)]; norm_num)

/-- C2: calculateGeometry throws exactly when one of the four validation
conditions fails (non-positive pivot, non-positive null point,
innerNull at least outerNull, or linear offset strictly exceeding the
effective length), and returns a result for all other inputs. -/
theorem calculateGeometry_error_characterization (p i o : ℝ) :
    ((∃ e, calculateGeometry p i o = Except.error e) ↔
      ¬ p > 0 ∨ ¬ (i > 0 ∧ o > 0) ∨ i ≥ o ∨
        Real.sqrt (p ^ 2 + i * o) < 0.5 * (i + o)) ∧
    ((∃ r, calculateGeometry p i o = Except.ok r) ↔
      ¬ (¬ p > 0 ∨ ¬ (i > 0 ∧ o > 0) ∨ i ≥ o ∨
        Real.sqrt (p ^ 2 + i * o) < 0.5 * (i + o))) := by
  rw [pow_two]
  have herr := calculateGeometry_error_iff p i o
  refine ⟨herr, ?_⟩
  constructor
  · rintro ⟨r, hr⟩ hdisj
    obtain ⟨e, he⟩ := herr.mpr hdisj
    rw [hr] at he
    exact Except.noConfusion he
  · intro hn
    cases hres : calculateGeometry p i o with
    | ok r => exact ⟨r, rfl⟩
    | error e => exact absurd (herr.mp ⟨e, hres⟩) hn

/-- C4: whenever calculateGeometry succeeds, the returned effectiveLength
is at least the pivot-to-spindle distance and strictly positive. -/
theorem calculateGeometry_effectiveLength_bounds (p i o : ℝ) (r : GeometryResult)
    (h : calculateGeometry p i o = Except.ok r) :
    p ≤ r.effectiveLength ∧ 0 < r.effectiveLength := by
  obtain ⟨hp, hi, ho, hio, hle, rfl⟩ := (calculateGeometry_ok_iff p i o r).mp h
  constructor
  · calc p = Real.sqrt (p * p) := (Real.sqrt_mul_self hp.le).symm
      _ ≤ Real.sqrt (p * p + i * o) := Real.sqrt_le_sqrt (by nlinarith)
  · exact Real.sqrt_pos.mpr (by nlinarith)

/-- Witness for C4 at the concrete valid input (212, 66, 120.9). -/
theorem calculateGeometry_effectiveLength_bounds_witness :
    (212 : ℝ) ≤ Real.sqrt (212 * 212 + 66 * 120.9) ∧
      (0 : ℝ) < Real.sqrt (212 * 212 + 66 * 120.9) :=
  calculateGeometry_effectiveLength_bounds 212 66 120.9 _
    ((calculateGeometry_ok_iff 212 66 120.9 _).mpr
      ⟨by norm_num, by norm_num, by norm_num, by norm_num,
        by rw [Real.le_sqrt (by norm_num) (by norm_num)]; norm_num, rfl⟩)

/-- C5: calculateGeometry is deterministic and stateless: in any two
call sequences, calls with identical argument triples produce identical
outcomes, regardless of the earlier calls in each sequence. -/
theorem calculateGeometry_deterministic (calls₁ calls₂ : List (ℝ × ℝ × ℝ))
    (n₁ n₂ : ℕ) (args : ℝ × ℝ × ℝ)
    (h₁ : calls₁[n₁]? = some args) (h₂ : calls₂[n₂]? = some args) :
    (callSequence calls₁)[n₁]? = (callSequence calls₂)[n₂]? := by
  simp [callSequence, List.getElem?_map, h₁, h₂]

/-- Witness for C5: the same triple at different positions of two
different call sequences yields the same outcome. -/
theorem calculateGeometry_deterministic_witness :
    (callSequence [(212, 66, 120.9)])[0]? =
      (callSequence [(1, 2, 3), (212, 66, 120.9)])[1]? :=
  calculateGeometry_deterministic [(212, 66, 120.9)] [(1, 2, 3), (212, 66, 120.9)]
    0 1 (212, 66, 120.9) rfl rfl

/-- C6: the linear-offset validity check is strict: when the computed
linear offset exactly equals the computed effective length,
calculateGeometry succeeds and the offset angle is 90 degrees. -/
theorem calculateGeometry_boundary_equality (p i o : ℝ)
    (hp : 0 < p) (hi : 0 < i) (hio : i < o)
    (heq : 0.5 * (i + o) = Real.sqrt (p ^ 2 + i * o)) :
    ∃ r, calculateGeometry p i o = Except.ok r ∧ r.offsetAngleDeg = 90 := by
  have ho : 0 < o := lt_trans hi hio
  rw [pow_two] at heq
  refine ⟨_, (calculateGeometry_ok_iff p i o _).mpr
    ⟨hp, hi, ho, hio, le_of_eq heq, rfl⟩, ?_⟩
  show Real.arcsin (0.5 * (i + o) / Real.sqrt (p * p + i * o)) * 180 / Real.pi = 90
  rw [← heq, div_self (ne_of_gt (by nlinarith : (0:ℝ) < 0.5 * (i + o))),
    Real.arcsin_one]
  field_simp
  ring

/-- Witness for C6 at (1, 1, 3), where pivotToSpindle = (outerNull - innerNull)/2
makes the linear offset equal the effective length exactly. -/
theorem calculateGeometry_boundary_equality_witness :
    ∃ r, calculateGeometry 1 1 3 = Except.ok r ∧ r.offsetAngleDeg = 90 :=
  calculateGeometry_boundary_equality 1 1 3 (by norm_num) (by norm_num) (by norm_num)
    (by rw [show (1:ℝ) ^ 2 + 1 * 3 = 2 ^ 2 by norm_num,
          Real.sqrt_sq (by norm_num : (0:ℝ) ≤ 2)]
        norm_num)

/-- C10: every successfully returned record has an offset angle in
(0, 90] degrees, a positive overhang, and echoes its three inputs
unchanged. -/
theorem calculateGeometry_result_invariants (p i o : ℝ) (r : GeometryResult)
    (h : calculateGeometry p i o = Except.ok r) :
    (0 < r.offsetAngleDeg ∧ r.offsetAngleDeg ≤ 90) ∧ 0 < r.overhang ∧
    r.pivotToSpindle = p ∧ r.innerNull = i ∧ r.outerNull = o := by
  obtain ⟨hp, hi, ho, hio, hle, rfl⟩ := (calculateGeometry_ok_iff p i o r).mp h
  have hL : 0 < Real.sqrt (p * p + i * o) := Real.sqrt_pos.mpr (by nlinarith)
  have hπ := Real.pi_pos
  refine ⟨⟨?_, ?_⟩, ?_, rfl, rfl, rfl⟩
  · have hx : 0 < 0.5 * (i + o) / Real.sqrt (p * p + i * o) :=
      div_pos (by nlinarith) hL
    exact div_pos (mul_pos (Real.arcsin_pos.mpr hx) (by norm_num)) hπ
  · have h1 := Real.arcsin_le_pi_div_two (0.5 * (i + o) / Real.sqrt (p * p + i * o))
    rw [div_le_iff₀ hπ]
    nlinarith
  · have hlt : p < Real.sqrt (p * p + i * o) := by
      have hm : Real.sqrt (p * p) < Real.sqrt (p * p + i * o) :=
        Real.sqrt_lt_sqrt (by positivity) (by nlinarith)
      rwa [Real.sqrt_mul_self hp.le] at hm
    linarith

/-- Witness for C10 at the concrete valid input (212, 66, 120.9). -/
theorem calculateGeometry_result_invariants_witness :
    (0 < Real.arcsin (0.5 * (66 + 120.9) / Real.sqrt (212 * 212 + 66 * 120.9))
        * 180 / Real.pi ∧
      Real.arcsin (0.5 * (66 + 120.9) / Real.sqrt (212 * 212 + 66 * 120.9))
        * 180 / Real.pi ≤ 90) ∧
    0 < Real.sqrt (212 * 212 + 66 * 120.9) - 212 ∧
    (212 : ℝ) = 212 ∧ (66 : ℝ) = 66 ∧ (120.9 : ℝ) = 120.9 :=
  calculateGeometry_result_invariants 212 66 120.9 _
    ((calculateGeometry_ok_iff 212 66 120.9 _).mpr
      ⟨by norm_num, by norm_num, by norm_num, by norm_num,
        by rw [Real.le_sqrt (by norm_num) (by norm_num)]; norm_num, rfl⟩)

/-- Upper bound on sin by one step of the triple-angle formula:
sharper than sin x < x, enough to locate arcsin to about three decimals. -/
lemma sin_lt_triple_bound (x : ℝ) (h1 : 0 < x) (h2 : x ≤ 1) :
    Real.sin x < x - 4 * (x / 3 - (x / 3) ^ 3 / 4) ^ 3 := by
  have h3 : (0:ℝ) < x / 3 := by linarith
  have h4 : x / 3 ≤ 1 := by linarith
  have hs_lt : Real.sin (x / 3) < x / 3 := Real.sin_lt h3
  have hs_gt : x / 3 - (x / 3) ^ 3 / 4 < Real.sin (x / 3) :=
    Real.sin_gt_sub_cube h3 h4
  have hcube : (x / 3 - (x / 3) ^ 3 / 4) ^ 3 < Real.sin (x / 3) ^ 3 := by
    gcongr
    nlinarith [mul_nonneg (mul_nonneg h3.le (sub_nonneg.mpr h4))
      (by linarith : (0:ℝ) ≤ x / 3 + 1)]
  have hsin3 : Real.sin x = 3 * Real.sin (x / 3) - 4 * Real.sin (x / 3) ^ 3 := by
    have h := Real.sin_three_mul (x / 3)
    rw [show 3 * (x / 3) = x by ring] at h
    exact h
  nlinarith [hcube, hs_lt, hsin3]

/-- Lower bound on sin by one step of the triple-angle formula. -/
lemma sin_gt_triple_bound (x : ℝ) (h1 : 0 < x) (h2 : x ≤ 1) :
    x - 19 / 4 * (x / 3) ^ 3 < Real.sin x := by
  have h3 : (0:ℝ) < x / 3 := by linarith
  have h4 : x / 3 ≤ 1 := by linarith
  have hs_lt : Real.sin (x / 3) < x / 3 := Real.sin_lt h3
  have hs_gt : x / 3 - (x / 3) ^ 3 / 4 < Real.sin (x / 3) :=
    Real.sin_gt_sub_cube h3 h4
  have hcube : Real.sin (x / 3) ^ 3 < (x / 3) ^ 3 := by
    gcongr
    exact (Real.sin_pos_of_pos_of_lt_pi h3 (by linarith [Real.pi_gt_d6])).le
  have hsin3 : Real.sin x = 3 * Real.sin (x / 3) - 4 * Real.sin (x / 3) ^ 3 := by
    have h := Real.sin_three_mul (x / 3)
    rw [show 3 * (x / 3) = x by ring] at h
    exact h
  nlinarith [hcube, hs_gt, hsin3]

/-- C3 counterexample: on input (212, 66, 120.9) — the Löfgren A /
Baerwald scheme — the computed effective length exceeds 230 mm and the
overhang exceeds 18 mm, so the values 224.34 mm and 12.34 mm claimed by
Scenario 1 of the spec are not what the code computes. -/
theorem scenario1_values_differ :
    ∃ r, calculateGeometry 212 66 120.9 = Except.ok r ∧
      230 < r.effectiveLength ∧ 18 < r.overhang := by
  refine ⟨_, (calculateGeometry_ok_iff 212 66 120.9 _).mpr
    ⟨by norm_num, by norm_num, by norm_num, by norm_num,
      by rw [Real.le_sqrt (by norm_num) (by norm_num)]; norm_num, rfl⟩, ?_, ?_⟩
  · show (230:ℝ) < Real.sqrt (212 * 212 + 66 * 120.9)
    rw [Real.lt_sqrt (by norm_num)]
    norm_num
  · show (18:ℝ) < Real.sqrt (212 * 212 + 66 * 120.9) - 212
    have : (230:ℝ) < Real.sqrt (212 * 212 + 66 * 120.9) := by
      rw [Real.lt_sqrt (by norm_num)]
      norm_num
    linarith

/-- C3 (amended): on input (212, 66, 120.9) calculateGeometry succeeds
with effectiveLength strictly between 230.04 and 230.06 mm (so 230.05 to
two decimals), overhang strictly between 18.04 and 18.06 mm, and
offsetAngleDeg strictly between 23.8 and 24.1 degrees. -/
theorem scenario1_actual_values :
    ∃ r, calculateGeometry 212 66 120.9 = Except.ok r ∧
      230.04 < r.effectiveLength ∧ r.effectiveLength < 230.06 ∧
      18.04 < r.overhang ∧ r.overhang < 18.06 ∧
      23.8 < r.offsetAngleDeg ∧ r.offsetAngleDeg < 24.1 := by
  have hπ := Real.pi_pos
  have hπl := Real.pi_gt_d6
  have hπu := Real.pi_lt_d6
  have e1 : (212:ℝ) * 212 + 66 * 120.9 = 52923.4 := by norm_num
  have e2 : (0.5:ℝ) * (66 + 120.9) = 93.45 := by norm_num
  have hL1 : (230.04:ℝ) < Real.sqrt 52923.4 := by
    rw [Real.lt_sqrt (by norm_num)]
    norm_num
  have hL2 : Real.sqrt 52923.4 < 230.06 := by
    rw [Real.sqrt_lt' (by norm_num)]
    norm_num
  have hL0 : (0:ℝ) < Real.sqrt 52923.4 := by linarith
  have hX1 : (0.40619:ℝ) < 93.45 / Real.sqrt 52923.4 := by
    rw [lt_div_iff₀ hL0]
    linarith
  have hX2 : 93.45 / Real.sqrt 52923.4 < 0.40624 := by
    rw [div_lt_iff₀ hL0]
    linarith
  have hymem : 93.45 / Real.sqrt 52923.4 ∈ Set.Icc (-1 : ℝ) 1 :=
    Set.mem_Icc.mpr ⟨by linarith, by linarith⟩
  have harc_lo : (0.4155:ℝ) < Real.arcsin (93.45 / Real.sqrt 52923.4) := by
    rw [Real.lt_arcsin_iff_sin_lt
      (Set.mem_Icc.mpr ⟨by nlinarith, by nlinarith⟩) hymem]
    have hs := sin_lt_triple_bound 0.4155 (by norm_num) (by norm_num)
    have hq : (0.4155:ℝ) - 4 * (0.4155 / 3 - (0.4155 / 3) ^ 3 / 4) ^ 3 < 0.40619 := by
      norm_num
    linarith
  have harc_hi : Real.arcsin (93.45 / Real.sqrt 52923.4) < 0.4206 := by
    rw [Real.arcsin_lt_iff_lt_sin hymem
      (Set.mem_Icc.mpr ⟨by nlinarith, by nlinarith⟩)]
    have hs := sin_gt_triple_bound 0.4206 (by norm_num) (by norm_num)
    have hq : (0.40624:ℝ) ≤ 0.4206 - 19 / 4 * (0.4206 / 3) ^ 3 := by
      norm_num
    linarith
  refine ⟨_, (calculateGeometry_ok_iff 212 66 120.9 _).mpr
    ⟨by norm_num, by norm_num, by norm_num, by norm_num,
      by rw [Real.le_sqrt (by norm_num) (by norm_num)]; norm_num, rfl⟩,
    ?_, ?_, ?_, ?_, ?_, ?_⟩
  · show (230.04:ℝ) < Real.sqrt (212 * 212 + 66 * 120.9)
    rw [e1]
    exact hL1
  · show Real.sqrt (212 * 212 + 66 * 120.9) < 230.06
    rw [e1]
    exact hL2
  · show (18.04:ℝ) < Real.sqrt (212 * 212 + 66 * 120.9) - 212
    rw [e1]
    linarith
  · show Real.sqrt (212 * 212 + 66 * 120.9) - 212 < 18.06
    rw [e1]
    linarith
  · show (23.8:ℝ) <
      Real.arcsin (0.5 * (66 + 120.9) / Real.sqrt (212 * 212 + 66 * 120.9))
        * 180 / Real.pi
    rw [e1, e2, lt_div_iff₀ hπ]
    nlinarith
  · show Real.arcsin (0.5 * (66 + 120.9) / Real.sqrt (212 * 212 + 66 * 120.9))
        * 180 / Real.pi < 24.1
    rw [e1, e2, div_lt_iff₀ hπ]
    nlinarith

/-- Agreement of the NaN-aware embedding with the all-real embedding on
non-NaN arguments: past its two NaN-sensitive guards it is literally
calculateGeometry, and on real arguments the guards coincide. -/
lemma calculateGeometryJS_eq (p i o : ℝ) :
    calculateGeometryJS (some p) (some i) (some o) = calculateGeometry p i o := by
  by_cases h1 : p > 0
  · by_cases h2 : i > 0 ∧ o > 0
    · simp [calculateGeometryJS, jsGtZero, jsVal, h1, h2]
    · simp [calculateGeometryJS, calculateGeometry, jsGtZero, jsVal, h1, h2]
  · simp [calculateGeometryJS, calculateGeometry, jsGtZero, jsVal, h1]

/-- C9: a NaN in any of the three arguments fails the negated positivity
guards, so the call throws and a result record is never produced. -/
theorem calculateGeometryJS_rejects_nan (p i o : Option ℝ)
    (h : p = none ∨ i = none ∨ o = none) :
    ∃ e, calculateGeometryJS p i o = Except.error e := by
  rcases h with rfl | rfl | rfl
  · exact ⟨"Pivot-to-spindle distance must be positive.",
      by simp [calculateGeometryJS, jsGtZero]⟩
  · cases p with
    | none => exact ⟨"Pivot-to-spindle distance must be positive.",
        by simp [calculateGeometryJS, jsGtZero]⟩
    | some pv =>
      by_cases hp : pv > 0
      · exact ⟨"Null points must be positive.",
          by simp [calculateGeometryJS, jsGtZero, hp]⟩
      · exact ⟨"Pivot-to-spindle distance must be positive.",
          by simp [calculateGeometryJS, jsGtZero, hp]⟩
  · cases p with
    | none => exact ⟨"Pivot-to-spindle distance must be positive.",
        by simp [calculateGeometryJS, jsGtZero]⟩
    | some pv =>
      by_cases hp : pv > 0
      · cases i with
        | none => exact ⟨"Null points must be positive.",
            by simp [calculateGeometryJS, jsGtZero, hp]⟩
        | some iv => exact ⟨"Null points must be positive.",
            by simp [calculateGeometryJS, jsGtZero, hp]⟩
      · exact ⟨"Pivot-to-spindle distance must be positive.",
          by simp [calculateGeometryJS, jsGtZero, hp]⟩

/-- Witness for C9: NaN as the pivot-to-spindle argument is rejected. -/
theorem calculateGeometryJS_rejects_nan_witness :
    ∃ e, calculateGeometryJS none (some 66) (some 120.9) = Except.error e :=
  calculateGeometryJS_rejects_nan none (some 66) (some 120.9) (Or.inl rfl)

/-- Invariant of the parsing loop: it never reaches a state where both a
truthy scheme and a null pair are recorded, because each of the two
flag handlers throws when the other option is already present and the
empty string can never be stored as a scheme name. -/
lemma parseArgsGo_not_both (pf : String → Option ℝ) (args : ParsedArgs)
    (argv : List String) :
    ∀ out, (jsTruthy args.scheme = false ∨ args.nulls = none) →
      parseArgsGo pf args argv = Except.ok out →
      jsTruthy out.scheme = false ∨ out.nulls = none := by
  induction args, argv using parseArgsGo.induct pf with
  | case1 args =>
    intro out hinv hok
    simp only [parseArgsGo, Except.ok.injEq] at hok
    subst hok
    exact hinv
  | case2 args rest h =>
    intro out hinv hok
    rw [parseArgsGo.eq_def] at hok
    simp [h] at hok
  | case3 args h =>
    intro out hinv hok
    simp [parseArgsGo, h] at hok
  | case4 args h rest' =>
    intro out hinv hok
    simp [parseArgsGo, h] at hok
  | case5 args h name rest' hname ih =>
    intro out hinv hok
    simp [parseArgsGo, h, hname] at hok
    have hnulls : args.nulls = none := by
      cases hnl : args.nulls with
      | none => rfl
      | some v => simp [hnl] at h
    exact ih out (Or.inr hnulls) hok
  | case6 args rest h =>
    intro out hinv hok
    rw [parseArgsGo.eq_def] at hok
    simp [h] at hok
  | case7 args h a b rest' inner outer hb ha ih =>
    intro out hinv hok
    simp [parseArgsGo, h, ha, hb] at hok
    have hscheme : jsTruthy args.scheme = false := by
      simp only [Bool.or_eq_true, not_or, Bool.not_eq_true] at h
      exact h.1
    exact ih out (Or.inl hscheme) hok
  | case8 args h a b rest' hfail =>
    intro out hinv hok
    cases hpa : pf a with
    | some inner =>
      cases hpb : pf b with
      | some outer => exact (hfail inner outer hpa hpb).elim
      | none => simp [parseArgsGo, h, hpa, hpb] at hok
    | none =>
      cases hpb : pf b with
      | some outer => simp [parseArgsGo, h, hpa, hpb] at hok
      | none => simp [parseArgsGo, h, hpa, hpb] at hok
  | case9 args rest h hshape =>
    intro out hinv hok
    cases rest with
    | nil => simp [parseArgsGo, h] at hok
    | cons a rest2 =>
      cases rest2 with
      | nil => simp [parseArgsGo, h] at hok
      | cons b rest3 => exact (hshape a b rest3 rfl).elim
  | case10 args rest ih =>
    intro out hinv hok
    simp only [parseArgsGo] at hok
    exact ih out hinv hok
  | case11 args token rest hne1 hne2 hne3 hsw =>
    intro out hinv hok
    simp [parseArgsGo, hne1, hne2, hne3, hsw] at hok
  | case12 args token rest hne1 hne2 hne3 hsw hpiv =>
    intro out hinv hok
    simp [parseArgsGo, hne1, hne2, hne3, hsw, hpiv] at hok
  | case13 args token rest hne1 hne2 hne3 hsw hpiv len hpf ih =>
    intro out hinv hok
    simp [parseArgsGo, hne1, hne2, hne3, hsw, hpiv, hpf] at hok
    exact ih out hinv hok
  | case14 args token rest hne1 hne2 hne3 hsw hpiv hpf =>
    intro out hinv hok
    simp [parseArgsGo, hne1, hne2, hne3, hsw, hpiv, hpf] at hok

/-- Direct reading of the --nulls handler: with a truthy scheme already
recorded, processing a --nulls flag throws the choose-only-one usage
error at once. -/
lemma parseArgsGo_nulls_after_scheme (pf : String → Option ℝ)
    (args : ParsedArgs) (rest : List String) (h : jsTruthy args.scheme = true) :
    parseArgsGo pf args ("--nulls" :: rest) =
      Except.error "Choose only one of --scheme or --nulls." := by
  rw [parseArgsGo.eq_def]
  simp [h]

/-- Direct reading of the --scheme handler: with a null pair already
recorded, processing a --scheme flag throws the choose-only-one usage
error at once. -/
lemma parseArgsGo_scheme_after_nulls (pf : String → Option ℝ)
    (args : ParsedArgs) (rest : List String) (h : args.nulls.isSome = true) :
    parseArgsGo pf args ("--scheme" :: rest) =
      Except.error "Choose only one of --scheme or --nulls." := by
  rw [parseArgsGo.eq_def]
  simp [h]

/-- Whenever parsing throws, main reports the message on stderr with
exit code 1 and prints nothing on stdout (in particular, the geometry
computation stage is never reached). -/
lemma mainModel_parse_error (pf : String → Option ℝ) (fmt : ℝ → Nat → String)
    (numStr : ℝ → String) (argv : List String) (e : String)
    (h : parseArgs pf argv = Except.error e) :
    mainModel pf fmt numStr argv = ⟨1, [], ["error: " ++ e]⟩ := by
  simp [mainModel, h]

/-- C7 counterexample: the invocation [--list-schemes, --scheme] contains
the --list-schemes token, yet the parser rejects the trailing --scheme
flag (missing value) before main runs, so nothing is printed on stdout
and the exit code is 1, not 0: other arguments are parsed, not ignored. -/
theorem listSchemes_not_unconditional :
    mainModel noParse blankFmt blankNum ["--list-schemes", "--scheme"] =
      ⟨1, [], ["error: --scheme requires a value."]⟩ := by
  have hperr : parseArgs noParse ["--list-schemes", "--scheme"] =
      Except.error "--scheme requires a value." := by
    simp [parseArgs, parseArgsGo, jsTruthy]
  simp [mainModel, hperr]

/-- C7 (amended): for every invocation whose arguments parse
successfully with the listSchemes flag set, main prints the five scheme
lines (names with null points, one line per scheme) on stdout, exits
with code 0, and does so whatever other parsed arguments are present
and without requiring the positional argument. -/
theorem listSchemes_prints_all_schemes (pf : String → Option ℝ)
    (fmt : ℝ → Nat → String) (numStr : ℝ → String) (argv : List String)
    (args : ParsedArgs) (hok : parseArgs pf argv = Except.ok args)
    (hls : args.listSchemes = true) :
    mainModel pf fmt numStr argv = ⟨0, SCHEMES.map (schemeLine numStr), []⟩ ∧
      (SCHEMES.map (schemeLine numStr)).length = 5 := by
  refine ⟨?_, by simp [SCHEMES]⟩
  simp [mainModel, hok, hls]

/-- Witness for C7 (amended) at the bare invocation [--list-schemes]. -/
theorem listSchemes_prints_all_schemes_witness :
    mainModel noParse blankFmt blankNum ["--list-schemes"] =
      ⟨0, SCHEMES.map (schemeLine blankNum), []⟩ ∧
      (SCHEMES.map (schemeLine blankNum)).length = 5 :=
  listSchemes_prints_all_schemes noParse blankFmt blankNum ["--list-schemes"]
    ⟨none, none, none, true⟩ (by simp [parseArgs, parseArgsGo]) rfl

/-- C8: supplying both options is rejected during parsing: a successful
parse never records both a scheme and a null pair; processing a --nulls
flag with a scheme already recorded (or a --scheme flag with nulls
already recorded) throws the choose-only-one usage error on the spot;
and whenever parsing throws, main exits with code 1 reporting the
message, with empty stdout — the geometry stage is never reached. -/
theorem bothFlags_usage_error (pf : String → Option ℝ) (argv : List String) :
    (∀ args, parseArgs pf argv = Except.ok args →
      ¬ (jsTruthy args.scheme = true ∧ args.nulls.isSome = true)) ∧
    (∀ args rest, jsTruthy args.scheme = true →
      parseArgsGo pf args ("--nulls" :: rest) =
        Except.error "Choose only one of --scheme or --nulls.") ∧
    (∀ args rest, args.nulls.isSome = true →
      parseArgsGo pf args ("--scheme" :: rest) =
        Except.error "Choose only one of --scheme or --nulls.") ∧
    (∀ e, parseArgs pf argv = Except.error e → ∀ fmt numStr,
      mainModel pf fmt numStr argv = ⟨1, [], ["error: " ++ e]⟩) := by
  refine ⟨?_, fun args rest h => parseArgsGo_nulls_after_scheme pf args rest h,
    fun args rest h => parseArgsGo_scheme_after_nulls pf args rest h,
    fun e he fmt numStr => mainModel_parse_error pf fmt numStr argv e he⟩
  intro args hok hboth
  rcases parseArgsGo_not_both pf
      ⟨none, none, none, false⟩ argv args (Or.inl rfl) hok with h | h
  · simp [h] at hboth
  · simp [h] at hboth

/-- Witness for C8: the Scenario 6 invocation with both flags fails with
the usage error and main exits 1 printing nothing. -/
theorem bothFlags_usage_error_witness :
    parseArgs noParse ["--scheme", "X", "--nulls", "1", "2"] =
      Except.error "Choose only one of --scheme or --nulls." ∧
    mainModel noParse blankFmt blankNum ["--scheme", "X", "--nulls", "1", "2"] =
      ⟨1, [], ["error: " ++ "Choose only one of --scheme or --nulls."]⟩ := by
  have hperr : parseArgs noParse ["--scheme", "X", "--nulls", "1", "2"] =
      Except.error "Choose only one of --scheme or --nulls." := by
    simp [parseArgs, parseArgsGo, jsTruthy]
  exact ⟨hperr,
    (bothFlags_usage_error noParse ["--scheme", "X", "--nulls", "1", "2"]).2.2.2
      "Choose only one of --scheme or --nulls." hperr blankFmt blankNum⟩
